import Mathlib

/-!
Verification of the metrics engine of the `financial_report` repository
(`financial_analyzer.py`, configuration from `config.py`).

Shallow embedding notes.
* A transaction row carries the derived period fields the engine uses
  (`df['year'] = date.dt.year`, `df['month'] = date.dt.to_period('M')`):
  the date is embedded as the pair `(year, month)`, which is all the
  analysed claims depend on.  Amounts are embedded as rationals `ℚ`
  (signed decimals: negative = expense, positive = income).
* A pandas `Series` indexed by category (the result of
  `groupby('category')['amount'].sum()`) is embedded as an association
  list `List (String × ℚ)` whose keys are the distinct categories in
  order of appearance; `series[k] = v` and `series.drop(k)` become
  `setKey` / `dropKey` below.
* `Series.mean()` returns NaN on an empty series; NaN has no rational
  counterpart, so the mean is embedded as `Option ℚ` with `none`
  standing for NaN.
-/

structure Transaction where
  year : Int
  month : Nat
  category : String
  amount : ℚ
deriving DecidableEq, Repr

/-- `ANALYSIS_CONFIG['loan_category']` in `config.py`. -/
def loanCategory : String := "Loan, interests"

/-- `ANALYSIS_CONFIG['lending_category']` in `config.py`, the repayment
category dropped from income in `_calculate_metrics`. -/
def repaymentCategory : String := "Lending, renting"

/-- `ANALYSIS_CONFIG['charity_category']` in `config.py`. -/
def charityCategory : String := "Charity"

/-- `ANALYSIS_CONFIG['spending_categories']['charity']`. -/
def charityList : List String := ["Charity"]

/-- `ANALYSIS_CONFIG['spending_categories']['lending']`. -/
def lendingList : List String := ["Loan, interests", "Lending, renting"]

/-- `REPORT_CONFIG['base_currency']`. -/
def baseCurrency : String := "EGP"

/-- `df['is_expense'] = df['amount'] < 0` (from `_prepare_data`). -/
def isExpense (t : Transaction) : Bool := t.amount < 0

/-- `df['is_income'] = df['amount'] > 0` (from `_prepare_data`). -/
def isIncome (t : Transaction) : Bool := 0 < t.amount

/-- Sum of the `amount` column of a row set. -/
def sumAmounts (l : List Transaction) : ℚ := (l.map Transaction.amount).sum

/-- `l.groupby('category')['amount'].sum()`: one entry per distinct
category value, holding the sum of the amounts of its rows. -/
def groupSumBy (l : List Transaction) : List (String × ℚ) :=
  ((l.map Transaction.category).dedup).map
    (fun c => (c, sumAmounts (l.filter (fun t => t.category = c))))

/-- `expenses = data[data['is_expense']]`. -/
def expensesOf (data : List Transaction) : List Transaction :=
  data.filter isExpense

/-- `income_data = data[data['is_income']]`. -/
def incomesOf (data : List Transaction) : List Transaction :=
  data.filter isIncome

/-- `spending_by_category = abs(expenses.groupby('category')['amount'].sum())`. -/
def spendingByCategoryRaw (data : List Transaction) : List (String × ℚ) :=
  (groupSumBy (expensesOf data)).map (fun p => (p.1, |p.2|))

/-- `income_by_category = income_data.groupby('category')['amount'].sum()`. -/
def incomeByCategoryRaw (data : List Transaction) : List (String × ℚ) :=
  groupSumBy (incomesOf data)

/-- `loan_expenses = abs(expenses[expenses['category'] == 'Loan, interests']['amount'].sum())`. -/
def loanExpenses (data : List Transaction) : ℚ :=
  |sumAmounts ((expensesOf data).filter (fun t => t.category = loanCategory))|

/-- `loan_income = income_data[income_data['category'] == 'Lending, renting']['amount'].sum()`. -/
def loanIncome (data : List Transaction) : ℚ :=
  sumAmounts ((incomesOf data).filter (fun t => t.category = repaymentCategory))

/-- `net_loan_spending = loan_expenses - loan_income`. -/
def netLoanSpending (data : List Transaction) : ℚ :=
  loanExpenses data - loanIncome data

/-- `series[k] = v` on a pandas Series: overwrite the entry when the key
is present, append it otherwise. -/
def setKey (m : List (String × ℚ)) (k : String) (v : ℚ) : List (String × ℚ) :=
  if m.any (fun p => p.1 = k) then
    m.map (fun p => if p.1 = k then (k, v) else p)
  else m ++ [(k, v)]

/-- `series.drop(k, errors='ignore')`. -/
def dropKey (m : List (String × ℚ)) (k : String) : List (String × ℚ) :=
  m.filter (fun p => ¬ p.1 = k)

/-- Key lookup in an embedded Series (`series[k]`, `none` = key absent). -/
def lookupKey (m : List (String × ℚ)) (k : String) : Option ℚ :=
  (m.find? (fun p => p.1 = k)).map Prod.snd

/-- Sum of the values of an embedded Series (`series.sum()`). -/
def valuesSum (m : List (String × ℚ)) : ℚ := (m.map Prod.snd).sum

/-- Lines 80-89 of `financial_analyzer.py`: set the loan entry to the net
when `net_loan_spending > 0`, otherwise drop it. -/
def adjustedSpendingByCategory (data : List Transaction) : List (String × ℚ) :=
  if 0 < netLoanSpending data then
    setKey (spendingByCategoryRaw data) loanCategory (netLoanSpending data)
  else dropKey (spendingByCategoryRaw data) loanCategory

/-- Line 92: unconditionally drop the repayment category from income. -/
def adjustedIncomeByCategory (data : List Transaction) : List (String × ℚ) :=
  dropKey (incomeByCategoryRaw data) repaymentCategory

/-- `charity_spending = abs(expenses[expenses['category'] == 'Charity']['amount'].sum())`. -/
def charitySpending (data : List Transaction) : ℚ :=
  |sumAmounts ((expensesOf data).filter (fun t => t.category = charityCategory))|

/-- The 3-way split returned by `_categorize_spending`. -/
structure SimplifiedSpending where
  charity : ℚ
  lending : ℚ
  normal : ℚ
deriving DecidableEq, Repr

/-- Loop body of `_categorize_spending`: add one entry's amount to the
charity, lending, or normal accumulator by category membership. -/
def categorizeStep (acc : SimplifiedSpending) (p : String × ℚ) :
    SimplifiedSpending :=
  if p.1 ∈ charityList then { acc with charity := acc.charity + p.2 }
  else if p.1 ∈ lendingList then { acc with lending := acc.lending + p.2 }
  else { acc with normal := acc.normal + p.2 }

/-- `_categorize_spending`: fold the loop body over the spending map,
starting from zero accumulators. -/
def categorizeSpending (m : List (String × ℚ)) : SimplifiedSpending :=
  m.foldl categorizeStep { charity := 0, lending := 0, normal := 0 }

/-- `data['amount'].mean()`: pandas returns NaN on an empty column,
embedded as `none`; otherwise the signed mean. -/
def avgTransaction (data : List Transaction) : Option ℚ :=
  if data.length = 0 then none
  else some (sumAmounts data / (data.length : ℚ))

/-- The dictionary returned by `_calculate_metrics` (lines 109-136),
fields in source order; `raw_totals` flattened into `raw_*` fields. -/
structure MetricsRecord where
  spending_by_category : List (String × ℚ)
  income_by_category : List (String × ℚ)
  total_spending : ℚ
  total_income : ℚ
  net_balance : ℚ
  charity_spending : ℚ
  spending_excluding_charity : ℚ
  transaction_count : Nat
  avg_transaction : Option ℚ
  simplified_spending : SimplifiedSpending
  total_lending : ℚ
  repaid_lending : ℚ
  outstanding_lending : ℚ
  excess_repayment : ℚ
  charity_percentage : ℚ
  currency : String
  raw_total_spending : ℚ
  raw_total_income : ℚ
  raw_spending_by_category : List (String × ℚ)
  raw_income_by_category : List (String × ℚ)
deriving DecidableEq, Repr

/-- `_calculate_metrics(data)` (lines 60-136 of `financial_analyzer.py`). -/
def calculateMetrics (data : List Transaction) : MetricsRecord :=
  let spending := spendingByCategoryRaw data
  let income := incomeByCategoryRaw data
  let adjSpending := adjustedSpendingByCategory data
  let adjIncome := adjustedIncomeByCategory data
  let totalSpendingAdjusted := valuesSum adjSpending
  let totalIncomeAdjusted := valuesSum adjIncome
  let charity := charitySpending data
  { spending_by_category := adjSpending
    income_by_category := adjIncome
    total_spending := totalSpendingAdjusted
    total_income := totalIncomeAdjusted
    net_balance := totalIncomeAdjusted - totalSpendingAdjusted
    charity_spending := charity
    spending_excluding_charity := totalSpendingAdjusted - charity
    transaction_count := data.length
    avg_transaction := avgTransaction data
    simplified_spending := categorizeSpending adjSpending
    total_lending := loanExpenses data
    repaid_lending := loanIncome data
    outstanding_lending := max 0 (netLoanSpending data)
    excess_repayment := max 0 (-netLoanSpending data)
    charity_percentage :=
      if 0 < totalSpendingAdjusted then charity / totalSpendingAdjusted * 100 else 0
    currency := baseCurrency
    raw_total_spending := valuesSum spending
    raw_total_income := valuesSum income
    raw_spending_by_category := spending
    raw_income_by_category := income }

/-- Month-period key of a row (`date.dt.to_period('M')`). -/
def monthKey (t : Transaction) : Int × Nat := (t.year, t.month)

/-- `analyze_by_period('month')`: one MetricsRecord per distinct month
group of the data. -/
def analyzeByMonth (data : List Transaction) :
    List ((Int × Nat) × MetricsRecord) :=
  ((data.map monthKey).dedup).map
    (fun k => (k, calculateMetrics (data.filter (fun t => monthKey t = k))))

/-- `analyze_by_period('year')`: one MetricsRecord per distinct year
group of the data. -/
def analyzeByYear (data : List Transaction) : List (Int × MetricsRecord) :=
  ((data.map Transaction.year).dedup).map
    (fun y => (y, calculateMetrics (data.filter (fun t => t.year = y))))

/-- The claim's `L`: the summed absolute expense amount of the loan
category (spec §4.1 wording, for comparison with `loanExpenses`). -/
def specLoanExpense (data : List Transaction) : ℚ :=
  (((expensesOf data).filter (fun t => t.category = loanCategory)).map
    (fun t => |t.amount|)).sum

/-- The claim's `R`: the summed income amount of the repayment category
(spec §4.1 wording; definitionally `loanIncome`). -/
def specRepaymentIncome (data : List Transaction) : ℚ :=
  sumAmounts ((incomesOf data).filter (fun t => t.category = repaymentCategory))

/-- The three simplified buckets of `_categorize_spending`. -/
inductive Bucket where
  | charity
  | lending
  | normal
deriving DecidableEq, Repr

/-- The bucket a category is assigned to, following the branch order of
`_categorize_spending`: charity on exact membership in the charity list,
else lending on membership in the lending list, else normal. -/
def bucketOf (c : String) : Bucket :=
  if c ∈ charityList then Bucket.charity
  else if c ∈ lendingList then Bucket.lending
  else Bucket.normal

/-- Sum of the spending-map values whose category falls in bucket `b`. -/
def bucketSum (m : List (String × ℚ)) (b : Bucket) : ℚ :=
  valuesSum (m.filter (fun p => bucketOf p.1 = b))

/-- Values stored in the dictionary returned by `_calculate_metrics`. -/
inductive MetricsValue where
  | num : ℚ → MetricsValue
  | count : Nat → MetricsValue
  | optNum : Option ℚ → MetricsValue
  | catMap : List (String × ℚ) → MetricsValue
  | simplified : SimplifiedSpending → MetricsValue
  | text : String → MetricsValue
  | rawTotals : ℚ → ℚ → List (String × ℚ) → List (String × ℚ) → MetricsValue
deriving DecidableEq, Repr

/-- The dict literal returned by `_calculate_metrics` (lines 109-136),
keys in source order, viewed as a Python dict. -/
def metricsDict (m : MetricsRecord) : List (String × MetricsValue) :=
  [("spending_by_category", MetricsValue.catMap m.spending_by_category),
   ("income_by_category", MetricsValue.catMap m.income_by_category),
   ("total_spending", MetricsValue.num m.total_spending),
   ("total_income", MetricsValue.num m.total_income),
   ("net_balance", MetricsValue.num m.net_balance),
   ("charity_spending", MetricsValue.num m.charity_spending),
   ("spending_excluding_charity",
     MetricsValue.num m.spending_excluding_charity),
   ("transaction_count", MetricsValue.count m.transaction_count),
   ("avg_transaction", MetricsValue.optNum m.avg_transaction),
   ("simplified_spending", MetricsValue.simplified m.simplified_spending),
   ("total_lending", MetricsValue.num m.total_lending),
   ("repaid_lending", MetricsValue.num m.repaid_lending),
   ("outstanding_lending", MetricsValue.num m.outstanding_lending),
   ("excess_repayment", MetricsValue.num m.excess_repayment),
   ("charity_percentage", MetricsValue.num m.charity_percentage),
   ("currency", MetricsValue.text m.currency),
   ("raw_totals", MetricsValue.rawTotals m.raw_total_spending
     m.raw_total_income m.raw_spending_by_category
     m.raw_income_by_category)]

/-- Python `d[k]`: the stored value when the key is present, otherwise a
`KeyError` carrying the key. -/
def dictGet (d : List (String × MetricsValue)) (k : String) :
    Except String MetricsValue :=
  match d.find? (fun p => p.1 = k) with
  | some p => Except.ok p.2
  | none => Except.error k

/-- The effective `get_lending_summary`: the second definition in
`financial_analyzer.py` (lines 242-255) shadows the first (lines 168-191)
and reads `all_time_data['lending_details']` and, per month,
`data['lending_details']`. -/
def getLendingSummary (data : List Transaction) :
    Except String (MetricsValue × List ((Int × Nat) × MetricsValue)) := do
  let overall ← dictGet (metricsDict (calculateMetrics data)) "lending_details"
  let byMonth ← (analyzeByMonth data).mapM
    (fun p => do
      let v ← dictGet (metricsDict p.2) "lending_details"
      pure (p.1, v))
  pure (overall, byMonth)

/-- Sample set with outstanding lending (spec §8 scenario A plus a food
row). -/
def sampleMixed : List Transaction :=
  [⟨2025, 1, "Loan, interests", -500⟩, ⟨2025, 1, "Lending, renting", 200⟩,
   ⟨2025, 1, "Food", -50⟩]

/-- Sample set with excess repayment (spec §8 scenario B). -/
def sampleOverRepaid : List Transaction :=
  [⟨2025, 1, "Loan, interests", -200⟩, ⟨2025, 1, "Lending, renting", 500⟩]

/-- Sample set with charity spending (spec §8 scenario C). -/
def sampleCharity : List Transaction :=
  [⟨2025, 1, "Charity", -100⟩, ⟨2025, 1, "Food", -400⟩,
   ⟨2025, 1, "Salary", 1000⟩]

lemma amount_neg_of_mem_expensesOf {data : List Transaction} {t : Transaction}
    (h : t ∈ expensesOf data) : t.amount < 0 := by
  have := (List.mem_filter.mp h).2
  simpa [isExpense] using this

lemma amount_pos_of_mem_incomesOf {data : List Transaction} {t : Transaction}
    (h : t ∈ incomesOf data) : 0 < t.amount := by
  have := (List.mem_filter.mp h).2
  simpa [isIncome] using this

lemma sumAmounts_nonpos (l : List Transaction) (h : ∀ t ∈ l, t.amount ≤ 0) :
    sumAmounts l ≤ 0 := by
  induction l with
  | nil => simp [sumAmounts]
  | cons t l ih =>
    have h1 := h t (List.mem_cons_self t l)
    have h2 := ih (fun x hx => h x (List.mem_cons_of_mem t hx))
    simp only [sumAmounts, List.map_cons, List.sum_cons] at *
    linarith

lemma sumAmounts_nonneg (l : List Transaction) (h : ∀ t ∈ l, 0 ≤ t.amount) :
    0 ≤ sumAmounts l := by
  induction l with
  | nil => simp [sumAmounts]
  | cons t l ih =>
    have h1 := h t (List.mem_cons_self t l)
    have h2 := ih (fun x hx => h x (List.mem_cons_of_mem t hx))
    simp only [sumAmounts, List.map_cons, List.sum_cons] at *
    linarith

lemma abs_sumAmounts_of_nonpos (l : List Transaction)
    (h : ∀ t ∈ l, t.amount ≤ 0) :
    |sumAmounts l| = (l.map (fun t => |t.amount|)).sum := by
  induction l with
  | nil => simp [sumAmounts]
  | cons t l ih =>
    have ht : t.amount ≤ 0 := h t (List.mem_cons_self t l)
    have hl : ∀ x ∈ l, x.amount ≤ 0 := fun x hx => h x (List.mem_cons_of_mem t hx)
    have hs : (l.map Transaction.amount).sum ≤ 0 := sumAmounts_nonpos l hl
    have hsum : sumAmounts (t :: l) = t.amount + sumAmounts l := by
      simp [sumAmounts]
    rw [hsum, List.map_cons, List.sum_cons, ← ih hl]
    rw [abs_of_nonpos (by simpa [sumAmounts] using add_nonpos ht hs),
      abs_of_nonpos ht, abs_of_nonpos (by simpa [sumAmounts] using hs)]
    ring

lemma specLoanExpense_eq (data : List Transaction) :
    specLoanExpense data = loanExpenses data := by
  rw [specLoanExpense, loanExpenses,
    abs_sumAmounts_of_nonpos _ (fun t ht =>
      le_of_lt (amount_neg_of_mem_expensesOf (List.mem_of_mem_filter ht)))]

lemma specRepaymentIncome_eq (data : List Transaction) :
    specRepaymentIncome data = loanIncome data := rfl

lemma max_netting (x : ℚ) :
    max 0 x - max 0 (-x) = x ∧ (max 0 x = 0 ∨ max 0 (-x) = 0) ∧
      ((max 0 x = 0 ∧ max 0 (-x) = 0) ↔ x = 0) := by
  rcases le_total x 0 with h | h
  · rw [max_eq_left h, max_eq_right (by linarith : (0 : ℚ) ≤ -x)]
    refine ⟨by ring, Or.inl rfl, ?_⟩
    constructor
    · rintro ⟨-, h2⟩; linarith
    · rintro rfl; simp
  · rw [max_eq_right h, max_eq_left (by linarith : -x ≤ 0)]
    refine ⟨by ring, Or.inr rfl, ?_⟩
    constructor
    · rintro ⟨h1, -⟩; linarith
    · rintro rfl; simp

/-- C1: for every transaction set, with `L` the summed absolute expense
amount of the loan category and `R` the summed income amount of the
repayment category, the engine outputs `outstanding_lending = max 0 (L-R)`
and `excess_repayment = max 0 (-(L-R))`; hence their difference is `L - R`,
at most one is nonzero, and both are zero exactly when `L = R`. -/
theorem C1_lending_netting (data : List Transaction) :
    (calculateMetrics data).outstanding_lending =
        max 0 (specLoanExpense data - specRepaymentIncome data) ∧
    (calculateMetrics data).excess_repayment =
        max 0 (-(specLoanExpense data - specRepaymentIncome data)) ∧
    (calculateMetrics data).outstanding_lending -
        (calculateMetrics data).excess_repayment =
      specLoanExpense data - specRepaymentIncome data ∧
    ((calculateMetrics data).outstanding_lending = 0 ∨
      (calculateMetrics data).excess_repayment = 0) ∧
    (((calculateMetrics data).outstanding_lending = 0 ∧
        (calculateMetrics data).excess_repayment = 0) ↔
      specLoanExpense data = specRepaymentIncome data) := by
  have hL : specLoanExpense data - specRepaymentIncome data =
      netLoanSpending data := by
    rw [specLoanExpense_eq, specRepaymentIncome_eq, netLoanSpending]
  have h1 : (calculateMetrics data).outstanding_lending =
      max 0 (netLoanSpending data) := rfl
  have h2 : (calculateMetrics data).excess_repayment =
      max 0 (-netLoanSpending data) := rfl
  obtain ⟨ha, hb, hc⟩ := max_netting (netLoanSpending data)
  refine ⟨by rw [h1, hL], by rw [h2, hL], ?_, ?_, ?_⟩
  · rw [h1, h2, hL]; exact ha
  · rw [h1, h2]; exact hb
  · rw [h1, h2]
    constructor
    · intro h; have := hc.mp h; linarith [hL, this]
    · intro h
      apply hc.mpr
      have : specLoanExpense data - specRepaymentIncome data = 0 := by
        rw [h]; ring
      linarith [hL.symm.trans this]

lemma lookupKey_cons (p : String × ℚ) (m : List (String × ℚ)) (k : String) :
    lookupKey (p :: m) k = if p.1 = k then some p.2 else lookupKey m k := by
  by_cases h : p.1 = k
  · simp [lookupKey, List.find?_cons_of_pos, h]
  · simp [lookupKey, List.find?_cons_of_neg, h]

lemma lookupKey_map_replace (m : List (String × ℚ)) (k : String) (v : ℚ)
    (hAny : m.any (fun p => p.1 = k) = true) :
    lookupKey (m.map (fun p => if p.1 = k then (k, v) else p)) k = some v := by
  induction m with
  | nil => simp at hAny
  | cons p m ih =>
    by_cases hp : p.1 = k
    · simp [List.map_cons, if_pos hp, lookupKey_cons]
    · have hm : m.any (fun p => p.1 = k) = true := by
        simpa [hp] using hAny
      simp [List.map_cons, if_neg hp, lookupKey_cons, hp, ih hm]

lemma lookupKey_append_single (m : List (String × ℚ)) (k : String) (v : ℚ)
    (h : m.any (fun p => p.1 = k) = false) :
    lookupKey (m ++ [(k, v)]) k = some v := by
  induction m with
  | nil => simp [lookupKey_cons, lookupKey]
  | cons p m ih =>
    simp only [List.any_cons, Bool.or_eq_false_iff] at h
    have hp : ¬ p.1 = k := by simpa using h.1
    simp [List.cons_append, lookupKey_cons, hp, ih h.2]

lemma lookupKey_setKey_self (m : List (String × ℚ)) (k : String) (v : ℚ) :
    lookupKey (setKey m k v) k = some v := by
  rw [setKey]
  by_cases h : m.any (fun p => p.1 = k)
  · rw [if_pos h, lookupKey_map_replace m k v h]
  · rw [if_neg h, lookupKey_append_single m k v (Bool.eq_false_iff.mpr h)]

lemma lookupKey_map_replace_other (m : List (String × ℚ)) (k : String)
    (v : ℚ) (c : String) (h : ¬ c = k) :
    lookupKey (m.map (fun p => if p.1 = k then (k, v) else p)) c =
      lookupKey m c := by
  induction m with
  | nil => rfl
  | cons p m ih =>
    by_cases hp : p.1 = k
    · have hkc : ¬ k = c := fun e => h e.symm
      have hpc : ¬ p.1 = c := by rw [hp]; exact hkc
      simp [List.map_cons, if_pos hp, lookupKey_cons, hkc, hpc, ih]
    · by_cases hc : p.1 = c
      · simp [List.map_cons, if_neg hp, lookupKey_cons, hc, h]
      · simp [List.map_cons, if_neg hp, lookupKey_cons, hc, ih]

lemma lookupKey_append_other (m : List (String × ℚ)) (k : String) (v : ℚ)
    (c : String) (h : ¬ c = k) :
    lookupKey (m ++ [(k, v)]) c = lookupKey m c := by
  induction m with
  | nil =>
    have hkc : ¬ k = c := fun e => h e.symm
    simp [lookupKey_cons, lookupKey, hkc]
  | cons p m ih =>
    by_cases hc : p.1 = c
    · simp [List.cons_append, lookupKey_cons, hc]
    · simp [List.cons_append, lookupKey_cons, hc, ih]

lemma lookupKey_setKey_other (m : List (String × ℚ)) (k : String) (v : ℚ)
    (c : String) (h : ¬ c = k) :
    lookupKey (setKey m k v) c = lookupKey m c := by
  rw [setKey]
  by_cases hAny : m.any (fun p => p.1 = k)
  · rw [if_pos hAny, lookupKey_map_replace_other m k v c h]
  · rw [if_neg hAny, lookupKey_append_other m k v c h]

lemma lookupKey_dropKey_self (m : List (String × ℚ)) (k : String) :
    lookupKey (dropKey m k) k = none := by
  induction m with
  | nil => simp [dropKey, lookupKey]
  | cons p m ih =>
    by_cases hp : p.1 = k
    · simpa [dropKey, List.filter_cons, hp] using ih
    · simpa [dropKey, List.filter_cons, hp, lookupKey_cons] using ih

lemma lookupKey_dropKey_other (m : List (String × ℚ)) (k : String)
    (c : String) (h : ¬ c = k) :
    lookupKey (dropKey m k) c = lookupKey m c := by
  induction m with
  | nil => rfl
  | cons p m ih =>
    have hkc : ¬ k = c := fun e => h e.symm
    simp only [dropKey, List.filter_cons, decide_not] at ih ⊢
    by_cases hp : p.1 = k
    · have hpc : ¬ p.1 = c := by rw [hp]; exact hkc
      simp [hp, lookupKey_cons, hpc, hkc, ih]
    · by_cases hc : p.1 = c
      · simp [hp, lookupKey_cons, hc, h, hkc]
      · simp [hp, lookupKey_cons, hc, hkc, ih]

/-- C2: if `net > 0` the adjusted spending map's loan entry equals `net`;
if `net ≤ 0` the loan category is absent from the adjusted spending map;
every other category keeps its raw aggregated magnitude. -/
theorem C2_loan_spending_adjustment (data : List Transaction) :
    (0 < netLoanSpending data →
      lookupKey (calculateMetrics data).spending_by_category loanCategory =
        some (netLoanSpending data)) ∧
    (netLoanSpending data ≤ 0 →
      lookupKey (calculateMetrics data).spending_by_category loanCategory =
        none) ∧
    (∀ c : String, ¬ c = loanCategory →
      lookupKey (calculateMetrics data).spending_by_category c =
        lookupKey (spendingByCategoryRaw data) c) := by
  have hm : (calculateMetrics data).spending_by_category =
      adjustedSpendingByCategory data := rfl
  refine ⟨?_, ?_, ?_⟩
  · intro h
    rw [hm, adjustedSpendingByCategory, if_pos h, lookupKey_setKey_self]
  · intro h
    rw [hm, adjustedSpendingByCategory, if_neg (not_lt.mpr h),
      lookupKey_dropKey_self]
  · intro c hc
    rw [hm, adjustedSpendingByCategory]
    by_cases h : 0 < netLoanSpending data
    · rw [if_pos h, lookupKey_setKey_other _ _ _ _ hc]
    · rw [if_neg h, lookupKey_dropKey_other _ _ _ hc]

/-- C3: the repayment category is absent from the returned
`income_by_category` map for every transaction set. -/
theorem C3_repayment_excluded_from_income (data : List Transaction) :
    lookupKey (calculateMetrics data).income_by_category repaymentCategory =
      none :=
  lookupKey_dropKey_self (incomeByCategoryRaw data) repaymentCategory

/-- C4: the returned record satisfies
`total_spending = sum(spending_by_category.values())`,
`total_income = sum(income_by_category.values())`, and
`net_balance = total_income - total_spending`. -/
theorem C4_totals_reconcile (data : List Transaction) :
    (calculateMetrics data).total_spending =
        valuesSum (calculateMetrics data).spending_by_category ∧
    (calculateMetrics data).total_income =
        valuesSum (calculateMetrics data).income_by_category ∧
    (calculateMetrics data).net_balance =
        (calculateMetrics data).total_income -
          (calculateMetrics data).total_spending :=
  ⟨rfl, rfl, rfl⟩

lemma foldl_categorizeStep (m : List (String × ℚ)) :
    ∀ acc : SimplifiedSpending,
      m.foldl categorizeStep acc =
        ⟨acc.charity + bucketSum m Bucket.charity,
         acc.lending + bucketSum m Bucket.lending,
         acc.normal + bucketSum m Bucket.normal⟩ := by
  induction m with
  | nil => intro acc; simp [bucketSum, valuesSum]
  | cons p m ih =>
    intro acc
    rw [List.foldl_cons, ih]
    by_cases h1 : p.1 ∈ charityList
    · simp only [categorizeStep, if_pos h1, bucketSum, bucketOf,
        List.filter_cons, valuesSum]
      simp [h1, add_assoc]
    · by_cases h2 : p.1 ∈ lendingList
      · simp only [categorizeStep, if_neg h1, if_pos h2, bucketSum, bucketOf,
          List.filter_cons, valuesSum]
        simp [h1, h2, add_assoc]
      · simp only [categorizeStep, if_neg h1, if_neg h2, bucketSum, bucketOf,
          List.filter_cons, valuesSum]
        simp [h1, h2, add_assoc]

lemma categorizeSpending_eq_bucketSums (m : List (String × ℚ)) :
    categorizeSpending m =
      ⟨bucketSum m Bucket.charity, bucketSum m Bucket.lending,
       bucketSum m Bucket.normal⟩ := by
  rw [categorizeSpending, foldl_categorizeStep]
  simp

lemma bucketSum_add_total (m : List (String × ℚ)) :
    bucketSum m Bucket.charity + bucketSum m Bucket.lending +
      bucketSum m Bucket.normal = valuesSum m := by
  induction m with
  | nil => simp [bucketSum, valuesSum]
  | cons p m ih =>
    rcases hb : bucketOf p.1 with _ | _ | _ <;>
      · simp only [bucketSum, List.filter_cons, valuesSum, hb] at *
        simp only [List.map_cons, List.sum_cons] at *
        simp at *
        linarith

/-- C5: every category of the adjusted spending map is assigned to exactly
one of the three buckets (`bucketOf`, mirroring the exact-match branch
order of `_categorize_spending`): each simplified bucket equals the sum
of the adjusted-map values assigned to it, and the three buckets sum to
`total_spending`. -/
theorem C5_simplified_split (data : List Transaction) :
    (calculateMetrics data).simplified_spending.charity =
        bucketSum (calculateMetrics data).spending_by_category Bucket.charity ∧
    (calculateMetrics data).simplified_spending.lending =
        bucketSum (calculateMetrics data).spending_by_category Bucket.lending ∧
    (calculateMetrics data).simplified_spending.normal =
        bucketSum (calculateMetrics data).spending_by_category Bucket.normal ∧
    (calculateMetrics data).simplified_spending.charity +
        (calculateMetrics data).simplified_spending.lending +
        (calculateMetrics data).simplified_spending.normal =
      (calculateMetrics data).total_spending := by
  have hs : (calculateMetrics data).simplified_spending =
      categorizeSpending (adjustedSpendingByCategory data) := rfl
  have hm : (calculateMetrics data).spending_by_category =
      adjustedSpendingByCategory data := rfl
  have ht : (calculateMetrics data).total_spending =
      valuesSum (adjustedSpendingByCategory data) := rfl
  rw [hs, hm, ht, categorizeSpending_eq_bucketSums]
  exact ⟨rfl, rfl, rfl, bucketSum_add_total _⟩

/-- C6: the engine's value on the empty transaction set.  All numeric
aggregates are 0 and the category maps are empty, but `avg_transaction`
is `none` (the embedding of `Series.mean()` returning NaN on an empty
column), not 0 as the claim requires. -/
theorem C6_empty_input_evaluation :
    (calculateMetrics []).avg_transaction = none ∧
    (calculateMetrics []).total_spending = 0 ∧
    (calculateMetrics []).total_income = 0 ∧
    (calculateMetrics []).net_balance = 0 ∧
    (calculateMetrics []).charity_spending = 0 ∧
    (calculateMetrics []).spending_excluding_charity = 0 ∧
    (calculateMetrics []).transaction_count = 0 ∧
    (calculateMetrics []).total_lending = 0 ∧
    (calculateMetrics []).repaid_lending = 0 ∧
    (calculateMetrics []).outstanding_lending = 0 ∧
    (calculateMetrics []).excess_repayment = 0 ∧
    (calculateMetrics []).charity_percentage = 0 ∧
    (calculateMetrics []).spending_by_category = [] ∧
    (calculateMetrics []).income_by_category = [] ∧
    (calculateMetrics []).simplified_spending = ⟨0, 0, 0⟩ := by
  simp +decide [calculateMetrics, avgTransaction, adjustedSpendingByCategory,
    adjustedIncomeByCategory, spendingByCategoryRaw, incomeByCategoryRaw,
    groupSumBy, expensesOf, incomesOf, sumAmounts, valuesSum,
    netLoanSpending, loanExpenses, loanIncome, charitySpending,
    categorizeSpending, categorizeStep, dropKey, List.filter]

/-- C7: when the adjusted total spending is 0, `charity_percentage` is 0
(no division-by-zero error); when it is positive, it equals
`charity_spending / total_spending * 100`. -/
theorem C7_charity_percentage_guard (data : List Transaction) :
    ((calculateMetrics data).total_spending = 0 →
      (calculateMetrics data).charity_percentage = 0) ∧
    (0 < (calculateMetrics data).total_spending →
      (calculateMetrics data).charity_percentage =
        (calculateMetrics data).charity_spending /
          (calculateMetrics data).total_spending * 100) := by
  have hp : (calculateMetrics data).charity_percentage =
      if 0 < valuesSum (adjustedSpendingByCategory data) then
        charitySpending data / valuesSum (adjustedSpendingByCategory data) * 100
      else 0 := rfl
  have ht : (calculateMetrics data).total_spending =
      valuesSum (adjustedSpendingByCategory data) := rfl
  constructor
  · intro h0
    rw [ht] at h0
    rw [hp, h0]
    simp
  · intro hpos
    rw [ht] at hpos
    rw [hp, if_pos hpos]
    rfl

lemma spendingByCategoryRaw_nonneg (data : List Transaction) :
    ∀ p ∈ spendingByCategoryRaw data, 0 ≤ p.2 := by
  intro p hp
  obtain ⟨q, hq, rfl⟩ := List.mem_map.mp hp
  exact abs_nonneg _

lemma mem_setKey (m : List (String × ℚ)) (k : String) (v : ℚ)
    (p : String × ℚ) (hp : p ∈ setKey m k v) : p ∈ m ∨ p = (k, v) := by
  rw [setKey] at hp
  by_cases h : m.any (fun p => p.1 = k)
  · rw [if_pos h] at hp
    obtain ⟨q, hq, hf⟩ := List.mem_map.mp hp
    by_cases hqk : q.1 = k
    · right; rw [← hf]; simp [hqk]
    · left; rw [← hf]; simpa [hqk] using hq
  · rw [if_neg h] at hp
    rcases List.mem_append.mp hp with h1 | h1
    · left; exact h1
    · right; simpa using h1

lemma adjustedSpending_nonneg (data : List Transaction) :
    ∀ p ∈ adjustedSpendingByCategory data, 0 ≤ p.2 := by
  intro p hp
  rw [adjustedSpendingByCategory] at hp
  by_cases h : 0 < netLoanSpending data
  · rw [if_pos h] at hp
    rcases mem_setKey _ _ _ _ hp with h1 | h1
    · exact spendingByCategoryRaw_nonneg data p h1
    · rw [h1]; exact le_of_lt h
  · rw [if_neg h] at hp
    exact spendingByCategoryRaw_nonneg data p (List.mem_of_mem_filter hp)

lemma valuesSum_nonneg (m : List (String × ℚ)) (h : ∀ p ∈ m, 0 ≤ p.2) :
    0 ≤ valuesSum m := by
  apply List.sum_nonneg
  intro x hx
  obtain ⟨p, hp, rfl⟩ := List.mem_map.mp hx
  exact h p hp

/-- C10: every adjusted spending-map value is nonnegative, and
`total_spending`, `charity_spending`, `total_lending`, `repaid_lending`,
`outstanding_lending`, `excess_repayment` are all nonnegative. -/
theorem C10_spending_figures_nonneg (data : List Transaction) :
    (∀ p ∈ (calculateMetrics data).spending_by_category, 0 ≤ p.2) ∧
    0 ≤ (calculateMetrics data).total_spending ∧
    0 ≤ (calculateMetrics data).charity_spending ∧
    0 ≤ (calculateMetrics data).total_lending ∧
    0 ≤ (calculateMetrics data).repaid_lending ∧
    0 ≤ (calculateMetrics data).outstanding_lending ∧
    0 ≤ (calculateMetrics data).excess_repayment := by
  refine ⟨adjustedSpending_nonneg data, ?_, ?_, ?_, ?_, ?_, ?_⟩
  · exact valuesSum_nonneg _ (adjustedSpending_nonneg data)
  · have h : (calculateMetrics data).charity_spending =
        charitySpending data := rfl
    rw [h, charitySpending]; exact abs_nonneg _
  · have h : (calculateMetrics data).total_lending = loanExpenses data := rfl
    rw [h, loanExpenses]; exact abs_nonneg _
  · have h : (calculateMetrics data).repaid_lending = loanIncome data := rfl
    rw [h, loanIncome]
    exact sumAmounts_nonneg _ (fun t ht =>
      le_of_lt (amount_pos_of_mem_incomesOf (List.mem_of_mem_filter ht)))
  · exact le_max_left 0 _
  · exact le_max_left 0 _

lemma sum_map_zero {κ : Type} (K : List κ) :
    (K.map (fun _ => (0 : ℚ))).sum = 0 := by
  induction K with
  | nil => rfl
  | cons a K ih => simp [ih]

lemma sum_map_ite_not_mem {κ : Type} [DecidableEq κ] (a : κ) (c : ℚ)
    (K : List κ) (h : ∀ k ∈ K, ¬ a = k) :
    (K.map (fun k => if a = k then c else 0)).sum = 0 := by
  induction K with
  | nil => rfl
  | cons b K ih =>
    have hb := h b (List.mem_cons_self b K)
    simp [hb, ih (fun k hk => h k (List.mem_cons_of_mem b hk))]

lemma sum_map_ite_mem {κ : Type} [DecidableEq κ] (a : κ) (c : ℚ)
    (K : List κ) (hnd : K.Nodup) (ha : a ∈ K) :
    (K.map (fun k => if a = k then c else 0)).sum = c := by
  induction K with
  | nil => simp at ha
  | cons b K ih =>
    rcases List.mem_cons.mp ha with h1 | h1
    · subst h1
      have hnotin : a ∉ K := (List.nodup_cons.mp hnd).1
      have hz : (K.map (fun k => if a = k then c else 0)).sum = 0 :=
        sum_map_ite_not_mem a c K
          (fun k hk e => hnotin (by rw [e]; exact hk))
      simp [hz]
    · have hb : ¬ a = b := by
        intro e
        exact (List.nodup_cons.mp hnd).1 (e ▸ h1)
      simp [hb, ih (List.nodup_cons.mp hnd).2 h1]

lemma sumAmounts_cons (t : Transaction) (l : List Transaction) :
    sumAmounts (t :: l) = t.amount + sumAmounts l := by
  simp [sumAmounts]

lemma fiber_filter_sum {κ : Type} [DecidableEq κ] (key : Transaction → κ)
    (q : κ → Bool) (K : List κ) (hnd : K.Nodup) :
    ∀ l : List Transaction, (∀ t ∈ l, key t ∈ K) →
      ((K.filter q).map
        (fun k => sumAmounts (l.filter (fun t => key t = k)))).sum =
      sumAmounts (l.filter (fun t => q (key t))) := by
  intro l
  induction l with
  | nil =>
    intro _
    simp only [List.filter_nil]
    rw [show (fun k : κ => sumAmounts ([] : List Transaction)) =
      (fun _ : κ => (0 : ℚ)) from rfl]
    rw [sum_map_zero]
    rfl
  | cons t l ih =>
    intro hmem
    have hkt : key t ∈ K := hmem t (List.mem_cons_self t l)
    have hl : ∀ x ∈ l, key x ∈ K :=
      fun x hx => hmem x (List.mem_cons_of_mem t hx)
    have hstep : ((K.filter q).map
        (fun k => sumAmounts ((t :: l).filter (fun x => key x = k)))).sum =
        ((K.filter q).map
          (fun k => (if key t = k then t.amount else 0) +
            sumAmounts (l.filter (fun x => key x = k)))).sum := by
      congr 1
      apply List.map_congr_left
      intro k _
      by_cases he : key t = k
      · simp [List.filter_cons, he, sumAmounts_cons]
      · simp [List.filter_cons, he]
    rw [hstep, List.sum_map_add]
    by_cases hq : q (key t) = true
    · have hmemf : key t ∈ K.filter q := List.mem_filter.mpr ⟨hkt, hq⟩
      rw [sum_map_ite_mem (key t) t.amount (K.filter q)
          (hnd.filter q) hmemf, ih hl]
      simp [List.filter_cons, hq, sumAmounts_cons]
    · have hno : ∀ k ∈ K.filter q, ¬ key t = k := by
        intro k hk e
        rw [e] at hq
        exact hq ((List.mem_filter.mp hk).2)
      rw [sum_map_ite_not_mem (key t) t.amount (K.filter q) hno, ih hl]
      simp [List.filter_cons, hq]

lemma valuesSum_groupSumBy_filter (l : List Transaction) (q : String → Bool) :
    valuesSum ((groupSumBy l).filter (fun p => q p.1)) =
      sumAmounts (l.filter (fun t => q t.category)) := by
  rw [groupSumBy, valuesSum, List.filter_map, List.map_map]
  exact fiber_filter_sum Transaction.category q _
    (List.nodup_dedup _) l
    (fun t ht => List.mem_dedup.mpr (List.mem_map_of_mem Transaction.category ht))

lemma totalIncome_eq (l : List Transaction) :
    (calculateMetrics l).total_income =
      sumAmounts ((incomesOf l).filter
        (fun t => ¬ t.category = repaymentCategory)) := by
  have h : (calculateMetrics l).total_income =
      valuesSum (dropKey (groupSumBy (incomesOf l)) repaymentCategory) := rfl
  rw [h, dropKey]
  exact valuesSum_groupSumBy_filter (incomesOf l)
    (fun c => decide (¬ c = repaymentCategory))

/-- C8: summing the per-month records' `total_income` over the months of a
year `y` equals the `total_income` of the record computed over the year-`y`
rows — the record `analyze_by_period('year')` stores for key `y`. -/
theorem C8_month_partition_income (data : List Transaction) (y : Int) :
    (((analyzeByMonth data).filter (fun p => p.1.1 = y)).map
        (fun p => p.2.total_income)).sum =
      (calculateMetrics (data.filter (fun t => t.year = y))).total_income ∧
    (y ∈ (data.map Transaction.year).dedup →
      (y, calculateMetrics (data.filter (fun t => t.year = y))) ∈
        analyzeByYear data) := by
  constructor
  · rw [analyzeByMonth, List.filter_map, List.map_map]
    show (((data.map monthKey).dedup.filter
        (fun k : Int × Nat => decide (k.1 = y))).map
        (fun k => (calculateMetrics
          (data.filter (fun t => monthKey t = k))).total_income)).sum = _
    have hpt : ∀ k : Int × Nat,
        (calculateMetrics (data.filter (fun t => monthKey t = k))).total_income =
        sumAmounts ((data.filter (fun t =>
            isIncome t && decide (¬ t.category = repaymentCategory))).filter
          (fun t => monthKey t = k)) := by
      intro k
      rw [totalIncome_eq, incomesOf]
      simp only [List.filter_filter]
      congr 1
      apply List.filter_congr
      intro t _
      cases h1 : isIncome t <;>
        cases h2 : decide (monthKey t = k) <;>
        cases h3 : decide (¬ t.category = repaymentCategory) <;> simp_all
    rw [List.map_congr_left (fun k _ => hpt k), fiber_filter_sum monthKey
        (fun k : Int × Nat => decide (k.1 = y)) _ (List.nodup_dedup _) _
        (fun t ht => List.mem_dedup.mpr
          (List.mem_map_of_mem monthKey (List.mem_of_mem_filter ht)))]
    rw [totalIncome_eq, incomesOf]
    simp only [List.filter_filter]
    congr 1
    apply List.filter_congr
    intro t _
    cases h1 : isIncome t <;>
      cases h2 : decide (t.year = y) <;>
      cases h3 : decide (¬ t.category = repaymentCategory) <;>
      simp_all [monthKey]
  · intro hy
    rw [analyzeByYear]
    exact List.mem_map.mpr ⟨y, hy, rfl⟩

/-- C9: the lending-summary view raises a `KeyError` on the key
`'lending_details'` for every transaction set, because the dict returned
by `_calculate_metrics` has no such key — it never returns the lending
fields without raising. -/
theorem C9_lending_summary_keyerror (data : List Transaction) :
    getLendingSummary data = Except.error "lending_details" := by
  have h : dictGet (metricsDict (calculateMetrics data)) "lending_details" =
      Except.error "lending_details" := by
    simp +decide [dictGet, metricsDict, List.find?]
  rw [getLendingSummary, h]
  rfl

theorem C2_loan_spending_adjustment_witness :
    lookupKey (calculateMetrics sampleMixed).spending_by_category
        loanCategory = some (netLoanSpending sampleMixed) ∧
    lookupKey (calculateMetrics sampleOverRepaid).spending_by_category
        loanCategory = none ∧
    lookupKey (calculateMetrics sampleMixed).spending_by_category "Food" =
        lookupKey (spendingByCategoryRaw sampleMixed) "Food" :=
  ⟨(C2_loan_spending_adjustment sampleMixed).1
      (by
        simp +decide [netLoanSpending, loanExpenses, loanIncome, expensesOf,
          incomesOf, isExpense, isIncome, sumAmounts, loanCategory,
          repaymentCategory, sampleMixed, List.filter]),
   (C2_loan_spending_adjustment sampleOverRepaid).2.1
      (by
        simp +decide [netLoanSpending, loanExpenses, loanIncome, expensesOf,
          incomesOf, isExpense, isIncome, sumAmounts, loanCategory,
          repaymentCategory, sampleOverRepaid, List.filter]),
   (C2_loan_spending_adjustment sampleMixed).2.2 "Food"
      (by simp [loanCategory])⟩

theorem C7_charity_percentage_guard_witness :
    (calculateMetrics ([] : List Transaction)).charity_percentage = 0 ∧
    (calculateMetrics sampleCharity).charity_percentage =
      (calculateMetrics sampleCharity).charity_spending /
        (calculateMetrics sampleCharity).total_spending * 100 :=
  ⟨(C7_charity_percentage_guard []).1
      (by
        simp +decide [calculateMetrics, adjustedSpendingByCategory,
          spendingByCategoryRaw, groupSumBy, expensesOf, incomesOf,
          sumAmounts, valuesSum, netLoanSpending, loanExpenses, loanIncome,
          dropKey, List.filter]),
   (C7_charity_percentage_guard sampleCharity).2
      (by
        simp +decide [calculateMetrics, adjustedSpendingByCategory,
          spendingByCategoryRaw, groupSumBy, expensesOf, incomesOf,
          isExpense, isIncome, sumAmounts, valuesSum, netLoanSpending,
          loanExpenses, loanIncome, setKey, dropKey, loanCategory,
          repaymentCategory, sampleCharity, List.filter, List.dedup,
          List.pwFilter]
        norm_num)⟩

theorem C8_month_partition_income_witness :
    ((2025 : Int), calculateMetrics
        (sampleMixed.filter (fun t => t.year = 2025))) ∈
      analyzeByYear sampleMixed :=
  (C8_month_partition_income sampleMixed 2025).2
    (by
      simp +decide [sampleMixed, List.dedup, List.pwFilter])

theorem C10_spending_figures_nonneg_witness :
    (0 : ℚ) ≤ (("Charity", (100 : ℚ))).2 ∧
    0 ≤ (calculateMetrics sampleCharity).total_spending :=
  ⟨(C10_spending_figures_nonneg sampleCharity).1 ("Charity", 100)
      (by
        simp +decide [calculateMetrics, adjustedSpendingByCategory,
          spendingByCategoryRaw, groupSumBy, expensesOf, incomesOf,
          isExpense, isIncome, sumAmounts, netLoanSpending, loanExpenses,
          loanIncome, setKey, dropKey, loanCategory, repaymentCategory,
          sampleCharity, List.filter, List.dedup, List.pwFilter]),
   (C10_spending_figures_nonneg sampleCharity).2.1⟩

example :
    (calculateMetrics
      [⟨2025, 1, "Loan, interests", -500⟩,
       ⟨2025, 1, "Lending, renting", 200⟩]).outstanding_lending = 300 := by
  simp +decide [calculateMetrics, netLoanSpending, loanExpenses, loanIncome,
    expensesOf, incomesOf, isExpense, isIncome, sumAmounts, loanCategory,
    repaymentCategory, List.filter]
  norm_num

example :
    lookupKey
      (calculateMetrics
        [⟨2025, 1, "Loan, interests", -200⟩,
         ⟨2025, 1, "Lending, renting", 500⟩]).spending_by_category
      loanCategory = none := by
  simp +decide [calculateMetrics, adjustedSpendingByCategory,
    spendingByCategoryRaw, groupSumBy, expensesOf, incomesOf, isExpense,
    isIncome, sumAmounts, netLoanSpending, loanExpenses, loanIncome,
    setKey, dropKey, lookupKey, loanCategory, repaymentCategory,
    List.filter, List.dedup, List.pwFilter]

example :
    (calculateMetrics
      [⟨2025, 1, "Charity", -100⟩, ⟨2025, 1, "Food", -400⟩,
       ⟨2025, 1, "Salary", 1000⟩]).charity_percentage = 20 := by
  simp +decide [calculateMetrics, adjustedSpendingByCategory,
    spendingByCategoryRaw, groupSumBy, expensesOf, incomesOf, isExpense,
    isIncome, sumAmounts, netLoanSpending, loanExpenses, loanIncome,
    charitySpending, setKey, dropKey, valuesSum, loanCategory,
    repaymentCategory, charityCategory, List.filter, List.dedup,
    List.pwFilter]
  norm_num

example :
    (calculateMetrics
      [⟨2025, 1, "Charity", -100⟩, ⟨2025, 1, "Food", -400⟩,
       ⟨2025, 1, "Salary", 1000⟩]).simplified_spending =
    ⟨100, 0, 400⟩ := by
  simp +decide [calculateMetrics, adjustedSpendingByCategory,
    spendingByCategoryRaw, groupSumBy, expensesOf, incomesOf, isExpense,
    isIncome, sumAmounts, netLoanSpending, loanExpenses, loanIncome,
    categorizeSpending, categorizeStep, setKey, dropKey, charityList,
    lendingList, loanCategory, repaymentCategory, List.filter, List.dedup,
    List.pwFilter]
